import Mathlib

/-
Verification of `src/python_scripts/generate_interfaces.py`, the schema
compiler that turns Astarte interface JSON definitions into a generated
C header/source pair.

The embedding is shallow: Python strings are Lean `String`s, the
`string.Template` objects become functions producing the exact substituted
text, the loop over interface files becomes structural recursion returning
`Except Failure`, and an uncaught Python exception or `sys.exit(1)` is an
`Except.error` (both make the process exit with status 1).  The output side
of the filesystem is a small record (directory present, contents of the two
generated files).  Literal braces inside generated C text are written with
the escapes \x7b and \x7d.
-/

namespace AstarteGen

/-- Python `str.replace(old, new)` restricted to a single-character pattern,
as used on line 163 and 176 of the source: every occurrence of the character
`old` is replaced by `new`. -/
def pyReplaceChar (s : String) (old new : Char) : String :=
  ⟨s.data.map (fun c => if c = old then new else c)⟩

/-- Python `str.upper()` on ASCII text (all strings fed to it by the script
are ASCII identifiers or type tags). -/
def pyUpper (s : String) : String :=
  ⟨s.data.map Char.toUpper⟩

/-- Python truthiness rendering used on lines 144-145 of the source:
`"true" if b else "false"`. -/
def pyBool (b : Bool) : String :=
  if b then "true" else "false"

/-- The `pathlib.PurePath.suffix` of a file name (line 130 of the source
filters on `i.suffix == ".json"`): the substring from the last dot of the
name, empty when there is no dot, the only dot leads the name, or the last
dot is the final character. -/
def pySuffix (n : String) : String :=
  if n.data.contains '.' then
    if ((n.data.reverse.takeWhile (fun c => c ≠ '.')).length + 1 < n.data.length) ∧
        1 ≤ (n.data.reverse.takeWhile (fun c => c ≠ '.')).length then
      ⟨'.' :: (n.data.reverse.takeWhile (fun c => c ≠ '.')).reverse⟩
    else ""
  else ""

/-- One mapping of an interface, with exactly the attributes the script
reads from the `astarte.device` mapping object (lines 139-146). -/
structure Mapping where
  endpoint : String
  type : String
  reliability : Int
  explicit_timestamp : Bool
  allow_unset : Bool
deriving DecidableEq, Repr

/-- One parsed interface document, with exactly the attributes the script
reads from the `astarte.device.Interface` object (lines 137-177): the three
predicate methods are recorded as the Booleans they return. -/
structure InterfaceDoc where
  name : String
  version_major : Nat
  version_minor : Nat
  is_type_properties : Bool
  is_server_owned : Bool
  is_aggregation_object : Bool
  mappings : List Mapping
deriving DecidableEq, Repr

/-- Lines 25-29 of the source: the reliability lookup dictionary.  A key
outside 0, 1, 2 raises `KeyError`, modelled by `none`. -/
def reliability_lookup : Int → Option String := fun r =>
  if r = 0 then some "UNRELIABLE"
  else if r = 1 then some "GUARANTEED"
  else if r = 2 then some "UNIQUE"
  else none

/-- Lines 31-56 of the source: the header template, substituted. -/
def interface_header_template (output_filename output_filename_cap interfaces_declarations : String) : String :=
  "/**\n * @file " ++ output_filename ++ ".h\n * @brief Contains automatically generated interfaces.\n *\n * @warning Do not modify this file manually.\n *\n * @details The generated structures contain all information regarding each interface.\n * and are automatically generated from the json interfaces definitions.\n */\n\n// NOLINTNEXTLINE This guard is clear enough.\n#ifndef " ++ output_filename_cap ++ "_H\n#define " ++ output_filename_cap ++ "_H\n\n#include <astarte_device_sdk/interface.h>\n#include <astarte_device_sdk/mapping.h>\n\n// Interface names should resemble as closely as possible their respective .json file names.\n// NOLINTBEGIN(readability-identifier-naming)\n" ++ interfaces_declarations ++ "\n// NOLINTEND(readability-identifier-naming)\n\n#endif /* " ++ output_filename_cap ++ "_H */\n"

/-- Lines 58-74 of the source: the source-file template, substituted. -/
def interface_source_template (output_filename interfaces_declarations : String) : String :=
  "/**\n * @file " ++ output_filename ++ ".c\n * @brief Contains automatically generated interfaces.\n *\n * @warning Do not modify this file manually.\n */\n\n#include \"" ++ output_filename ++ ".h\"\n\n// Interface names should resemble as closely as possible their respective .json file names.\n// NOLINTBEGIN(readability-identifier-naming)\n" ++ interfaces_declarations ++ "\n\n// NOLINTEND(readability-identifier-naming)\n"

/-- Lines 76-78 of the source: the extern declaration template. -/
def interface_declaration_template (interface_name_sc : String) : String :=
  "extern const astarte_interface_t " ++ interface_name_sc ++ ";"

/-- Lines 80-96 of the source: the interface definition template. -/
def interface_definition_template (mappings_number interface_name_sc interface_name version_major version_minor type ownership aggregation mappings : String) : String :=
  "\nstatic const astarte_mapping_t " ++ interface_name_sc ++ "_mappings[" ++ mappings_number ++ "] = \x7b\n" ++ mappings ++ "\n\x7d;\n\nconst astarte_interface_t " ++ interface_name_sc ++ " = \x7b\n    .name = \"" ++ interface_name ++ "\",\n    .major_version = " ++ version_major ++ ",\n    .minor_version = " ++ version_minor ++ ",\n    .type = " ++ type ++ ",\n    .ownership = " ++ ownership ++ ",\n    .aggregation = " ++ aggregation ++ ",\n    .mappings = " ++ interface_name_sc ++ "_mappings,\n    .mappings_length = " ++ mappings_number ++ "U,\n\x7d;"

/-- Lines 98-107 of the source: the single-mapping template. -/
def mapping_definition_template (endpoint type reliability explicit_timestamp allow_unset : String) : String :=
  "\n    \x7b\n        .endpoint = \"" ++ endpoint ++ "\",\n        .type = " ++ type ++ ",\n        .reliability = " ++ reliability ++ ",\n        .explicit_timestamp = " ++ explicit_timestamp ++ ",\n        .allow_unset = " ++ allow_unset ++ ",\n    \x7d,"

/-- Lines 163 and 176 of the source: the identifier sanitizer
`interface.name.replace(".", "_").replace("-", "_")`. -/
def sanitize (name : String) : String :=
  pyReplaceChar (pyReplaceChar name '.' '_') '-' '_'

/-- Ways a run can terminate with process exit status 1: the three
`sys.exit(1)` branches of check mode (lines 196-207), the uncaught
`FileNotFoundError` from opening an absent artifact for reading in check
mode, the uncaught `KeyError` from `reliability_lookup` (line 143), and an
uncaught exception from `json.load` or from the `Interface` constructor
while loading a schema file (lines 132-133). -/
inductive Failure where
  | schemaError (file : String)
  | keyError (key : Int)
  | checkNoOutputDir
  | missingArtifact (path : String)
  | headerMismatch
  | sourceMismatch
deriving DecidableEq, Repr

/-- What opening a schema file and running `json.load` on it yields:
either an exception (malformed JSON), or a JSON document shaped like an
interface, which the `Interface` constructor then validates. -/
inductive FileContent where
  | malformed
  | parsed (doc : InterfaceDoc)
deriving DecidableEq, Repr

/-- The part of the filesystem the script writes or compares against: the
output directory and the two generated artifacts inside it (`none` means
the file is absent). -/
structure OutputFS where
  dirExists : Bool
  header : Option String
  source : Option String
deriving DecidableEq, Repr

/-- Modelled from the spec: the closed enumeration of mapping data-type
tags that the Schema Loader (the third-party `astarte.device.Interface`
constructor, which is not under `src/`) validates mapping types against.
Spec section 3 lists the scalar tags integer, double, boolean, string,
binary blob, datetime, and the array variants of each. -/
def validTypeTags : List String :=
  ["integer", "double", "boolean", "string", "binaryblob", "datetime",
   "integerarray", "doublearray", "booleanarray", "stringarray",
   "binaryblobarray", "datetimearray"]

/-- Modelled from the spec: the target type constants declared by
`astarte_device_sdk/mapping.h`, repository code that is not under `src/`
(spec sections 4.3 and 6: one symbolic constant per enumerated tag). -/
def definedTypeConstants : List String :=
  ["ASTARTE_MAPPING_TYPE_INTEGER", "ASTARTE_MAPPING_TYPE_DOUBLE",
   "ASTARTE_MAPPING_TYPE_BOOLEAN", "ASTARTE_MAPPING_TYPE_STRING",
   "ASTARTE_MAPPING_TYPE_BINARYBLOB", "ASTARTE_MAPPING_TYPE_DATETIME",
   "ASTARTE_MAPPING_TYPE_INTEGERARRAY", "ASTARTE_MAPPING_TYPE_DOUBLEARRAY",
   "ASTARTE_MAPPING_TYPE_BOOLEANARRAY", "ASTARTE_MAPPING_TYPE_STRINGARRAY",
   "ASTARTE_MAPPING_TYPE_BINARYBLOBARRAY", "ASTARTE_MAPPING_TYPE_DATETIMEARRAY"]

/-- Modelled from the spec: the validation the Schema Loader (the
`astarte.device.Interface` constructor, not under `src/`) performs on a
parsed document before the script sees it, restricted to the checks the
claims depend on: section 4.1 requires the mapping list to be non-empty and
every mapping type tag to belong to the closed enumeration. -/
def loaderAccepts (doc : InterfaceDoc) : Bool :=
  !doc.mappings.isEmpty && doc.mappings.all (fun m => validTypeTags.contains m.type)

/-- Lines 139-146 of the source: render one mapping record.  A reliability
outside the lookup dictionary raises `KeyError`. -/
def renderMapping (m : Mapping) : Except Failure String :=
  match reliability_lookup m.reliability with
  | none => .error (.keyError m.reliability)
  | some rel =>
    .ok (mapping_definition_template
      m.endpoint
      ("ASTARTE_MAPPING_TYPE_" ++ pyUpper m.type)
      ("ASTARTE_MAPPING_RELIABILITY_" ++ rel)
      (pyBool m.explicit_timestamp)
      (pyBool m.allow_unset))

/-- Lines 136-147 of the source: the loop accumulating `mappings_struct`,
in document order, aborting at the first raised exception. -/
def renderMappings : List Mapping → Except Failure (List String)
  | [] => .ok []
  | m :: ms =>
    match renderMapping m with
    | .error e => .error e
    | .ok s =>
      match renderMappings ms with
      | .error e => .error e
      | .ok rest => .ok (s :: rest)

/-- Lines 174-177 of the source: the extern declaration of one interface. -/
def declOf (interface : InterfaceDoc) : String :=
  interface_declaration_template (sanitize interface.name)

/-- Lines 149-171 of the source: the definition block of one interface,
given its already-rendered mapping records. -/
def structOf (interface : InterfaceDoc) (mappings_struct : List String) : String :=
  interface_definition_template
    (toString interface.mappings.length)
    (sanitize interface.name)
    interface.name
    (toString interface.version_major)
    (toString interface.version_minor)
    ("ASTARTE_INTERFACE_" ++
      (if interface.is_type_properties then "TYPE_PROPERTIES" else "TYPE_DATASTREAM"))
    ("ASTARTE_INTERFACE_" ++
      (if interface.is_server_owned then "OWNERSHIP_SERVER" else "OWNERSHIP_DEVICE"))
    ("ASTARTE_INTERFACE_" ++
      (if interface.is_aggregation_object then "AGGREGATION_OBJECT" else "AGGREGATION_INDIVIDUAL"))
    (String.join mappings_struct)

/-- Lines 136-178 of the source, for one already-loaded document: render
its mapping records, its definition block and its declaration. -/
def processDoc (doc : InterfaceDoc) : Except Failure (String × String) :=
  match renderMappings doc.mappings with
  | .error e => .error e
  | .ok mappings_struct => .ok (declOf doc, structOf doc mappings_struct)

/-- Lines 130-178 of the source: the loop over the sorted schema files,
accumulating `interfaces_declarations` and `interfaces_structs`.  For each
file, `json.load` (modelled by `content`) and the `Interface` constructor
(modelled by `loaderAccepts`, see above) run first; any exception aborts
the whole run before anything is written. -/
def processFiles (content : String → FileContent) : List String → Except Failure (List String × List String)
  | [] => .ok ([], [])
  | f :: fs =>
    match content f with
    | .malformed => .error (.schemaError f)
    | .parsed doc =>
      if loaderAccepts doc then
        match processDoc doc with
        | .error e => .error e
        | .ok ds =>
          match processFiles content fs with
          | .error e => .error e
          | .ok rest => .ok (ds.1 :: rest.1, ds.2 :: rest.2)
      else .error (.schemaError f)

/-- Lexicographic comparison of character lists by code point, the order
Python uses to compare strings: true when the first list is a prefix of the
second or the first differing character is smaller. -/
def charListLe : List Char → List Char → Bool
  | [], _ => true
  | _ :: _, [] => false
  | a :: as, b :: bs => if a = b then charListLe as bs else decide (a < b)

/-- Python string comparison, as used by `sorted` on line 130 of the source
(paths sharing one parent directory compare by their file names). -/
def pyStrLe (a b : String) : Prop :=
  charListLe a.data b.data = true

instance : DecidableRel pyStrLe := fun a b =>
  inferInstanceAs (Decidable (charListLe a.data b.data = true))

instance : IsTotal String pyStrLe := by
  constructor
  have h : ∀ as bs : List Char, charListLe as bs = true ∨ charListLe bs as = true := by
    intro as
    induction as with
    | nil => intro bs; left; rfl
    | cons a as ih =>
      intro bs
      cases bs with
      | nil => right; rfl
      | cons b bs =>
        by_cases hab : a = b
        · subst hab
          simpa [charListLe] using ih bs
        · rcases lt_or_gt_of_ne hab with hlt | hgt
          · left; simp only [charListLe, if_neg hab, decide_eq_true_eq]; exact hlt
          · right; simp only [charListLe, if_neg (Ne.symm hab), decide_eq_true_eq]; exact hgt
  exact fun a b => h a.data b.data

instance : IsTrans String pyStrLe := by
  constructor
  have h : ∀ as bs cs : List Char,
      charListLe as bs = true → charListLe bs cs = true → charListLe as cs = true := by
    intro as
    induction as with
    | nil => intro bs cs h1 h2; rfl
    | cons a as ih =>
      intro bs cs h1 h2
      cases bs with
      | nil => simp [charListLe] at h1
      | cons b bs =>
        cases cs with
        | nil => simp [charListLe] at h2
        | cons c cs =>
          by_cases hab : a = b <;> by_cases hbc : b = c
          · subst hab; subst hbc
            simp only [charListLe, if_pos rfl] at h1 h2 ⊢
            exact ih bs cs h1 h2
          · subst hab
            simp only [charListLe, if_pos rfl, if_neg hbc, decide_eq_true_eq] at h2 ⊢
            exact h2
          · subst hbc
            simp only [charListLe, if_neg hab, decide_eq_true_eq] at h1 ⊢
            exact h1
          · simp only [charListLe, if_neg hab, if_neg hbc, decide_eq_true_eq] at h1 h2
            by_cases hac : a = c
            · exact absurd (h1.trans h2) (by simp [hac])
            · simp only [charListLe, if_neg hac, decide_eq_true_eq]
              exact h1.trans h2
  exact fun a b c => h a.data b.data c.data

instance : IsAntisymm String pyStrLe := by
  constructor
  have h : ∀ as bs : List Char,
      charListLe as bs = true → charListLe bs as = true → as = bs := by
    intro as
    induction as with
    | nil =>
      intro bs h1 h2
      cases bs with
      | nil => rfl
      | cons b bs => simp [charListLe] at h2
    | cons a as ih =>
      intro bs h1 h2
      cases bs with
      | nil => simp [charListLe] at h1
      | cons b bs =>
        by_cases hab : a = b
        · subst hab
          simp only [charListLe, if_pos rfl] at h1 h2
          exact congrArg (a :: ·) (ih bs h1 h2)
        · simp only [charListLe, if_neg hab, if_neg (Ne.symm hab),
            decide_eq_true_eq] at h1 h2
          exact absurd h2 (lt_asymm h1)
  intro a b h1 h2
  exact congrArg String.mk (h a.data b.data h1 h2)

/-- Line 130 of the source: the candidate schema files — the directory
listing filtered on suffix `.json` and sorted by Python string comparison
of the file names. -/
def sortedJsonFiles (listing : List String) : List String :=
  List.insertionSort pyStrLe (listing.filter (fun n => pySuffix n == ".json"))

/-- Lines 111-218 of the source: the whole `generate_interfaces` function.
The input directory is a listing (in arbitrary filesystem iteration order)
together with what loading each name yields; the result is the final state
of the output filesystem, or the failure that made the process exit with
status 1.  Both artifacts are rendered before the mode branch, exactly as
in the source; in write mode the directory is created if absent and both
files are written. -/
def generate_interfaces (listing : List String) (content : String → FileContent)
    (fs : OutputFS) (output_fn : String) (check : Bool) : Except Failure OutputFS :=
  match processFiles content (sortedJsonFiles listing) with
  | .error e => .error e
  | .ok (decls, structs) =>
    let interfaces_header := interface_header_template output_fn (pyUpper output_fn)
      (String.intercalate "\n" decls)
    let interfaces_source := interface_source_template output_fn
      (String.intercalate "\n" structs)
    if check then
      if !fs.dirExists then .error .checkNoOutputDir
      else
        match fs.header with
        | none => .error (.missingArtifact (output_fn ++ ".h"))
        | some h =>
          if h ≠ interfaces_header then .error .headerMismatch
          else
            match fs.source with
            | none => .error (.missingArtifact (output_fn ++ ".c"))
            | some s =>
              if s ≠ interfaces_source then .error .sourceMismatch
              else .ok fs
    else
      .ok { dirExists := true, header := some interfaces_header, source := some interfaces_source }

/-- Process exit status of a run: 0 on success, 1 on any failure (the
`sys.exit(1)` calls and uncaught Python exceptions all exit with 1). -/
def exitCode (r : Except Failure OutputFS) : Nat :=
  match r with
  | .ok _ => 0
  | .error _ => 1

/-- The diagnostic reported for each failure: the three check-mode `print`
messages are the literal strings of lines 196, 201 and 206 of the source;
for the uncaught exceptions it is the final line of the Python traceback,
exception type plus argument (quotation of the path omitted). -/
def failureMessage : Failure → String
  | .schemaError f => "Exception: malformed interface file " ++ f
  | .keyError k => "KeyError: " ++ toString k
  | .checkNoOutputDir => "Check failed: non existant output directory"
  | .missingArtifact p => "FileNotFoundError: [Errno 2] No such file or directory: " ++ p
  | .headerMismatch => "Check failed: header is not up to date"
  | .sourceMismatch => "Check failed: source is not up to date"

/-- The identifier alphabet named by the claim about the sanitizer:
letters, digits and underscore. -/
def isIdentChar (c : Char) : Bool :=
  c.isAlpha || c.isDigit || c = '_'

/-- A directory holding the two colliding interfaces of the collision
claim: `org.a-b` and `org.a_b` both sanitize to `org_a_b`. -/
def collisionContent : String → FileContent := fun n =>
  if n = "a.json" then
    .parsed { name := "org.a-b", version_major := 0, version_minor := 1,
              is_type_properties := false, is_server_owned := false,
              is_aggregation_object := false,
              mappings := [{ endpoint := "/v", type := "double", reliability := 0,
                             explicit_timestamp := false, allow_unset := false }] }
  else
    .parsed { name := "org.a_b", version_major := 0, version_minor := 1,
              is_type_properties := false, is_server_owned := false,
              is_aggregation_object := false,
              mappings := [{ endpoint := "/v", type := "double", reliability := 0,
                             explicit_timestamp := false, allow_unset := false }] }

/-- A one-interface directory used to instantiate universally quantified
results on a concrete input (the scenario of spec section 8). -/
def temperatureContent : String → FileContent := fun _ =>
  .parsed { name := "org.Temperature", version_major := 0, version_minor := 1,
            is_type_properties := false, is_server_owned := false,
            is_aggregation_object := false,
            mappings := [{ endpoint := "/temp", type := "double", reliability := 1,
                           explicit_timestamp := true, allow_unset := false }] }

/-- The filesystem produced by one concrete write-mode run, used to
instantiate the write-then-check result. -/
def writtenFS : OutputFS :=
  (generate_interfaces ["i.json"] temperatureContent ⟨false, none, none⟩
    "generated_interfaces" false).toOption.getD ⟨false, none, none⟩

/-- A directory mixing one valid interface with one malformed file. -/
def mixedContent : String → FileContent := fun n =>
  if n = "bad.json" then .malformed else temperatureContent n

/-- An interface document carrying a mapping whose type tag is outside the
closed enumeration. -/
def badTagDoc : InterfaceDoc :=
  { name := "org.Bad", version_major := 0, version_minor := 1,
    is_type_properties := false, is_server_owned := false,
    is_aggregation_object := false,
    mappings := [{ endpoint := "/v", type := "float", reliability := 0,
                   explicit_timestamp := false, allow_unset := false }] }

/-- A directory holding only the bad-type-tag document. -/
def badTagContent : String → FileContent := fun _ => .parsed badTagDoc

/-- An interface document carrying a mapping whose reliability is outside
0, 1, 2. -/
def badRelDoc : InterfaceDoc :=
  { name := "org.BadRel", version_major := 0, version_minor := 1,
    is_type_properties := false, is_server_owned := false,
    is_aggregation_object := false,
    mappings := [{ endpoint := "/v", type := "double", reliability := 7,
                   explicit_timestamp := false, allow_unset := false }] }

/-- A directory holding only the bad-reliability document. -/
def badRelContent : String → FileContent := fun _ => .parsed badRelDoc

/-- An interface document with an empty mapping list. -/
def emptyDoc : InterfaceDoc :=
  { name := "org.Empty", version_major := 0, version_minor := 1,
    is_type_properties := false, is_server_owned := false,
    is_aggregation_object := false, mappings := [] }

/-- A directory holding only the empty-mappings document. -/
def emptyMapContent : String → FileContent := fun _ => .parsed emptyDoc

/-- The declarations produced by one concrete successful run. -/
def tempDecls : List String :=
  ((processFiles temperatureContent ["i.json"]).toOption.getD ([], [])).1

/-- The definition blocks produced by one concrete successful run. -/
def tempStructs : List String :=
  ((processFiles temperatureContent ["i.json"]).toOption.getD ([], [])).2

/- ------------------------------------------------------------------ -/
/- Helper lemmas                                                      -/
/- ------------------------------------------------------------------ -/

theorem charListLe_iff_lex : ∀ as bs : List Char,
    charListLe as bs = true ↔ (as = bs ∨ List.Lex (· < ·) as bs) := by
  intro as
  induction as with
  | nil =>
    intro bs
    cases bs with
    | nil => exact ⟨fun _ => Or.inl rfl, fun _ => rfl⟩
    | cons b bs => exact ⟨fun _ => Or.inr List.Lex.nil, fun _ => rfl⟩
  | cons a as ih =>
    intro bs
    cases bs with
    | nil =>
      constructor
      · intro h; exact absurd h (by simp [charListLe])
      · rintro (h | h)
        · exact absurd h (List.cons_ne_nil a as)
        · cases h
    | cons b bs =>
      by_cases hab : a = b
      · subst hab
        have hred : charListLe (a :: as) (a :: bs) = charListLe as bs := by
          show (if a = a then charListLe as bs else decide (a < a)) = charListLe as bs
          rw [if_pos rfl]
        rw [hred, ih bs]
        constructor
        · rintro (h | h)
          · exact Or.inl (by rw [h])
          · exact Or.inr (List.Lex.cons h)
        · rintro (h | h)
          · injection h with h1 h2; exact Or.inl h2
          · cases h with
            | cons h2 => exact Or.inr h2
            | rel h2 => exact absurd h2 (lt_irrefl a)
      · simp only [charListLe, if_neg hab, decide_eq_true_eq]
        constructor
        · intro h; exact Or.inr (List.Lex.rel h)
        · rintro (h | h)
          · injection h with h1; exact absurd h1 hab
          · cases h with
            | rel h2 => exact h2
            | cons h2 => exact absurd rfl hab

theorem sortedJsonFiles_sorted (listing : List String) :
    List.Sorted pyStrLe (sortedJsonFiles listing) :=
  List.sorted_insertionSort pyStrLe _

theorem sortedJsonFiles_perm (listing : List String) :
    (sortedJsonFiles listing).Perm (listing.filter (fun n => pySuffix n == ".json")) :=
  List.perm_insertionSort pyStrLe _

theorem sortedJsonFiles_perm_inv {l1 l2 : List String} (hperm : l1.Perm l2) :
    sortedJsonFiles l1 = sortedJsonFiles l2 := by
  have h : (sortedJsonFiles l1).Perm (sortedJsonFiles l2) :=
    ((sortedJsonFiles_perm l1).trans (hperm.filter _)).trans (sortedJsonFiles_perm l2).symm
  exact List.eq_of_perm_of_sorted h (sortedJsonFiles_sorted l1) (sortedJsonFiles_sorted l2)

theorem generate_error_of_processFiles {listing : List String} {content : String → FileContent}
    (fs : OutputFS) (fn : String) (chk : Bool) {e : Failure}
    (h : processFiles content (sortedJsonFiles listing) = .error e) :
    generate_interfaces listing content fs fn chk = .error e := by
  simp [generate_interfaces, h]

theorem loaderAccepts_spec {doc : InterfaceDoc} (h : loaderAccepts doc = true) :
    doc.mappings ≠ [] ∧ ∀ m ∈ doc.mappings, validTypeTags.contains m.type = true := by
  simp only [loaderAccepts, Bool.and_eq_true, Bool.not_eq_true', List.isEmpty_eq_false,
    List.all_eq_true] at h
  exact ⟨h.1, h.2⟩

theorem renderMappings_error_of_mem {ms : List Mapping} {m : Mapping} (hm : m ∈ ms)
    (hbad : reliability_lookup m.reliability = none) :
    ∃ e, renderMappings ms = .error e := by
  induction ms with
  | nil => cases hm
  | cons m0 rest ih =>
    cases hrm : renderMapping m0 with
    | error e => exact ⟨e, by simp [renderMappings, hrm]⟩
    | ok s =>
      rcases List.mem_cons.mp hm with h0 | h0
      · subst h0
        rw [renderMapping, hbad] at hrm
        cases hrm
      · rcases ih h0 with ⟨e, he⟩
        exact ⟨e, by simp [renderMappings, hrm, he]⟩

theorem renderMappings_ok_spec : ∀ (ms : List Mapping) (l : List String),
    renderMappings ms = .ok l →
    l.length = ms.length ∧
    ∀ (i : Nat) (m : Mapping), ms[i]? = some m →
      ∃ s, renderMapping m = .ok s ∧ l[i]? = some s := by
  intro ms
  induction ms with
  | nil =>
    intro l h
    simp only [renderMappings] at h
    cases h
    exact ⟨rfl, fun i m hm => by simp at hm⟩
  | cons m0 rest ih =>
    intro l h
    simp only [renderMappings] at h
    cases hrm : renderMapping m0 with
    | error e => rw [hrm] at h; cases h
    | ok s =>
      rw [hrm] at h
      cases hrest : renderMappings rest with
      | error e => rw [hrest] at h; cases h
      | ok lr =>
        rw [hrest] at h
        cases h
        rcases ih lr hrest with ⟨hlen, hidx⟩
        refine ⟨by simp [hlen], ?_⟩
        intro i m hm
        cases i with
        | zero =>
          simp only [List.getElem?_cons_zero, Option.some.injEq] at hm
          subst hm
          exact ⟨s, hrm, by simp⟩
        | succ j =>
          simp only [List.getElem?_cons_succ] at hm ⊢
          exact hidx j m hm

theorem processFiles_error_of_mem {content : String → FileContent} :
    ∀ (names : List String) (f : String), f ∈ names →
    (content f = .malformed ∨
      (∃ d, content f = .parsed d ∧
        (loaderAccepts d = false ∨ ∃ e0, processDoc d = .error e0))) →
    ∃ e, processFiles content names = .error e := by
  intro names
  induction names with
  | nil => intro f hf; cases hf
  | cons g rest ih =>
    intro f hf hbad
    cases hcg : content g with
    | malformed => exact ⟨.schemaError g, by simp [processFiles, hcg]⟩
    | parsed d =>
      by_cases hacc : loaderAccepts d
      · cases hpd : processDoc d with
        | error e0 => exact ⟨e0, by simp [processFiles, hcg, hacc, hpd]⟩
        | ok ds =>
          have hft : f ∈ rest := by
            rcases List.mem_cons.mp hf with h0 | h0
            · subst h0
              rcases hbad with h1 | ⟨d2, h2, h3⟩
              · rw [hcg] at h1; cases h1
              · rw [hcg] at h2
                injection h2 with h2
                subst h2
                rcases h3 with h3 | ⟨e0, h3⟩
                · rw [hacc] at h3; cases h3
                · rw [hpd] at h3; cases h3
            · exact h0
          rcases ih f hft hbad with ⟨e, he⟩
          exact ⟨e, by simp [processFiles, hcg, hacc, hpd, he]⟩
      · exact ⟨.schemaError g, by simp [processFiles, hcg, hacc]⟩

theorem processFiles_ok_spec {content : String → FileContent} :
    ∀ (names : List String) (decls structs : List String),
    processFiles content names = .ok (decls, structs) →
    decls.length = names.length ∧ structs.length = names.length ∧
    ∀ (i : Nat) (f : String), names[i]? = some f →
      ∃ doc mst, content f = .parsed doc ∧ loaderAccepts doc = true ∧
        renderMappings doc.mappings = .ok mst ∧
        decls[i]? = some (declOf doc) ∧ structs[i]? = some (structOf doc mst) := by
  intro names
  induction names with
  | nil =>
    intro decls structs h
    simp only [processFiles] at h
    cases h
    exact ⟨rfl, rfl, fun i f hf => by simp at hf⟩
  | cons g rest ih =>
    intro decls structs h
    cases hcg : content g with
    | malformed =>
      simp only [processFiles, hcg] at h
      exact Except.noConfusion h
    | parsed d =>
      by_cases hacc : loaderAccepts d = true
      · cases hpd : processDoc d with
        | error e =>
          simp only [processFiles, hcg, hacc, hpd, if_true] at h
          exact Except.noConfusion h
        | ok ds =>
          cases hpf : processFiles content rest with
          | error e =>
            simp only [processFiles, hcg, hacc, hpd, hpf, if_true] at h
            exact Except.noConfusion h
          | ok r =>
            simp only [processFiles, hcg, hacc, hpd, hpf, if_true,
              Except.ok.injEq, Prod.mk.injEq] at h
            obtain ⟨h1, h2⟩ := h
            subst h1
            subst h2
            rcases ih r.1 r.2 (by rw [hpf]) with ⟨hl1, hl2, hidx⟩
            have hds : ∃ mst, renderMappings d.mappings = .ok mst ∧
                ds = (declOf d, structOf d mst) := by
              have hpd2 := hpd
              cases hrm : renderMappings d.mappings with
              | error e =>
                simp only [processDoc, hrm] at hpd2
                exact Except.noConfusion hpd2
              | ok mst =>
                simp only [processDoc, hrm, Except.ok.injEq] at hpd2
                exact ⟨mst, rfl, hpd2.symm⟩
            rcases hds with ⟨mst, hrm, hdseq⟩
            subst hdseq
            refine ⟨by simp [hl1], by simp [hl2], ?_⟩
            intro i f hf
            cases i with
            | zero =>
              simp only [List.getElem?_cons_zero, Option.some.injEq] at hf
              subst hf
              exact ⟨d, mst, hcg, hacc, hrm, by simp, by simp⟩
            | succ j =>
              simp only [List.getElem?_cons_succ] at hf ⊢
              exact hidx j f hf
      · simp only [processFiles, hcg, hacc, if_false] at h
        exact Except.noConfusion h

theorem loaderAccepts_false_of_badtag {doc : InterfaceDoc} {m : Mapping}
    (hm : m ∈ doc.mappings) (hbad : validTypeTags.contains m.type = false) :
    loaderAccepts doc = false := by
  cases hb : loaderAccepts doc with
  | false => rfl
  | true =>
    exact absurd ((loaderAccepts_spec hb).2 m hm)
      (by intro h; rw [h] at hbad; exact Bool.noConfusion hbad)

theorem processFiles_structs_mem {content : String → FileContent} :
    ∀ (names decls structs : List String) (s : String),
    processFiles content names = .ok (decls, structs) → s ∈ structs →
    ∃ doc mst, loaderAccepts doc = true ∧ renderMappings doc.mappings = .ok mst ∧
      s = structOf doc mst := by
  intro names
  induction names with
  | nil =>
    intro decls structs s h hs
    simp only [processFiles] at h
    cases h
    cases hs
  | cons g rest ih =>
    intro decls structs s h hs
    cases hcg : content g with
    | malformed =>
      simp only [processFiles, hcg] at h
      exact Except.noConfusion h
    | parsed d =>
      by_cases hacc : loaderAccepts d = true
      · cases hpd : processDoc d with
        | error e =>
          simp only [processFiles, hcg, hacc, hpd, if_true] at h
          exact Except.noConfusion h
        | ok ds =>
          cases hpf : processFiles content rest with
          | error e =>
            simp only [processFiles, hcg, hacc, hpd, hpf, if_true] at h
            exact Except.noConfusion h
          | ok r =>
            simp only [processFiles, hcg, hacc, hpd, hpf, if_true,
              Except.ok.injEq, Prod.mk.injEq] at h
            obtain ⟨h1, h2⟩ := h
            subst h1
            subst h2
            have hds : ∃ mst, renderMappings d.mappings = .ok mst ∧
                ds = (declOf d, structOf d mst) := by
              have hpd2 := hpd
              cases hrm : renderMappings d.mappings with
              | error e =>
                simp only [processDoc, hrm] at hpd2
                exact Except.noConfusion hpd2
              | ok mst =>
                simp only [processDoc, hrm, Except.ok.injEq] at hpd2
                exact ⟨mst, rfl, hpd2.symm⟩
            rcases List.mem_cons.mp hs with h0 | h0
            · rcases hds with ⟨mst, hrm, hdeq⟩
              subst hdeq
              exact ⟨d, mst, hacc, hrm, h0⟩
            · exact ih r.1 r.2 s (by rw [hpf]) h0
      · simp only [processFiles, hcg, hacc, if_false] at h
        exact Except.noConfusion h

/- ------------------------------------------------------------------ -/
/- Claim theorems                                                     -/
/- ------------------------------------------------------------------ -/

/-- C1: the claim requires that two Interface Documents whose names
sanitize to the same symbol abort the run with a CollisionError before
anything is written.  The code performs no collision check at all: on a
directory holding interfaces named `org.a-b` and `org.a_b`, whose names
both sanitize to `org_a_b`, the run emits the same extern declaration
twice, finishes write mode successfully with exit code 0, and writes both
artifacts. -/
theorem collision_emitted_without_error :
    sanitize "org.a-b" = "org_a_b" ∧ sanitize "org.a_b" = "org_a_b" ∧
    Except.map Prod.fst (processFiles collisionContent ["a.json", "b.json"]) =
      .ok ["extern const astarte_interface_t org_a_b;",
        "extern const astarte_interface_t org_a_b;"] ∧
    exitCode (generate_interfaces ["a.json", "b.json"] collisionContent
      ⟨false, none, none⟩ "generated_interfaces" false) = 0 :=
  ⟨rfl, rfl, rfl, rfl⟩

/-- C2: the tag-to-constant construction of line 141 maps every tag of the
closed enumeration to one of the constants declared by the target header,
and a document carrying a tag outside the enumeration is rejected by the
Loader (spec-modelled, see `loaderAccepts`), so the whole run fails with
exit code 1 instead of emitting an undefined constant. -/
theorem type_tag_mapping_total :
    (∀ t ∈ validTypeTags,
      ("ASTARTE_MAPPING_TYPE_" ++ pyUpper t) ∈ definedTypeConstants) ∧
    (∀ (doc : InterfaceDoc) (m : Mapping), m ∈ doc.mappings →
      validTypeTags.contains m.type = false → loaderAccepts doc = false) ∧
    (∀ (listing : List String) (content : String → FileContent) (fs : OutputFS)
      (fn : String) (chk : Bool) (f : String) (doc : InterfaceDoc) (m : Mapping),
      f ∈ sortedJsonFiles listing → content f = .parsed doc → m ∈ doc.mappings →
      validTypeTags.contains m.type = false →
      ∃ e, generate_interfaces listing content fs fn chk = .error e ∧
        exitCode (generate_interfaces listing content fs fn chk) = 1) := by
  refine ⟨by decide, fun doc m hm hbad => loaderAccepts_false_of_badtag hm hbad, ?_⟩
  intro listing content fs fn chk f doc m hf hc hm hbad
  rcases processFiles_error_of_mem (sortedJsonFiles listing) f hf
    (Or.inr ⟨doc, hc, Or.inl (loaderAccepts_false_of_badtag hm hbad)⟩) with ⟨e, he⟩
  have hg := generate_error_of_processFiles fs fn chk he
  exact ⟨e, hg, by rw [hg]; rfl⟩

/-- C2 witness: a directory holding one document whose single mapping has
the unrecognized tag `float` makes the run fail with exit code 1. -/
theorem type_tag_mapping_total_witness :
    ∃ e, generate_interfaces ["bad.json"] badTagContent ⟨false, none, none⟩
        "generated_interfaces" false = .error e ∧
      exitCode (generate_interfaces ["bad.json"] badTagContent ⟨false, none, none⟩
        "generated_interfaces" false) = 1 :=
  type_tag_mapping_total.2.2 ["bad.json"] badTagContent ⟨false, none, none⟩
    "generated_interfaces" false "bad.json" badTagDoc
    ⟨"/v", "float", 0, false, false⟩ (by decide) rfl (by decide) (by decide)

/-- C3: in check mode each failure condition of lines 194-207 — absent
output directory, absent artifact (an uncaught FileNotFoundError whose
final traceback line carries the artifact path), header text differing
from the freshly rendered header, source text differing from the freshly
rendered source — is fatal with process exit code 1, and each is reported
by a distinct diagnostic naming the failing artifact and whether the cause
was absence or mismatch. -/
theorem check_mode_failures (listing : List String) (content : String → FileContent)
    (fs : OutputFS) (fn : String) (decls structs : List String)
    (hok : processFiles content (sortedJsonFiles listing) = .ok (decls, structs)) :
    (fs.dirExists = false →
      generate_interfaces listing content fs fn true = .error .checkNoOutputDir) ∧
    (fs.dirExists = true → fs.header = none →
      generate_interfaces listing content fs fn true =
        .error (.missingArtifact (fn ++ ".h"))) ∧
    (∀ h0, fs.dirExists = true → fs.header = some h0 →
      h0 ≠ interface_header_template fn (pyUpper fn) (String.intercalate "\n" decls) →
      generate_interfaces listing content fs fn true = .error .headerMismatch) ∧
    (fs.dirExists = true →
      fs.header = some (interface_header_template fn (pyUpper fn)
        (String.intercalate "\n" decls)) →
      fs.source = none →
      generate_interfaces listing content fs fn true =
        .error (.missingArtifact (fn ++ ".c"))) ∧
    (∀ s0, fs.dirExists = true →
      fs.header = some (interface_header_template fn (pyUpper fn)
        (String.intercalate "\n" decls)) →
      fs.source = some s0 →
      s0 ≠ interface_source_template fn (String.intercalate "\n" structs) →
      generate_interfaces listing content fs fn true = .error .sourceMismatch) ∧
    (∀ e : Failure, exitCode (.error e) = 1) ∧
    failureMessage .checkNoOutputDir = "Check failed: non existant output directory" ∧
    failureMessage (.missingArtifact (fn ++ ".h")) =
      "FileNotFoundError: [Errno 2] No such file or directory: " ++ (fn ++ ".h") ∧
    failureMessage .headerMismatch = "Check failed: header is not up to date" ∧
    failureMessage .sourceMismatch = "Check failed: source is not up to date" := by
  refine ⟨?_, ?_, ?_, ?_, ?_, fun e => rfl, rfl, rfl, rfl, rfl⟩
  · intro hd
    simp [generate_interfaces, hok, hd]
  · intro hd hh
    simp [generate_interfaces, hok, hd, hh]
  · intro h0 hd hh hne
    simp [generate_interfaces, hok, hd, hh, hne]
  · intro hd hh hs
    simp [generate_interfaces, hok, hd, hh, hs]
  · intro s0 hd hh hs hne
    simp [generate_interfaces, hok, hd, hh, hs, hne]

/-- C3 witness: check mode against an absent output directory fails with
the directory diagnostic and exit code 1. -/
theorem check_mode_failures_witness :
    generate_interfaces [] temperatureContent ⟨false, none, none⟩
      "generated_interfaces" true = .error .checkNoOutputDir ∧
    exitCode (generate_interfaces [] temperatureContent ⟨false, none, none⟩
      "generated_interfaces" true) = 1 :=
  ⟨(check_mode_failures [] temperatureContent ⟨false, none, none⟩
      "generated_interfaces" [] [] rfl).1 rfl, rfl⟩

/-- C4 counterexample: the claim states the sanitizer replaces every
character outside the letters-digits-underscore alphabet, so that every
output symbol stays inside that alphabet.  The code replaces only the dot
and the hyphen: the name `org.a+b` keeps its plus sign. -/
theorem sanitize_counterexample :
    sanitize "org.a+b" = "org_a+b" ∧ '+' ∈ (sanitize "org.a+b").data ∧
    isIdentChar '+' = false :=
  ⟨rfl, by decide, rfl⟩

/-- C4 amended: the sanitizer is the pure charwise map replacing exactly
the dot and the hyphen with an underscore and leaving every other
character unchanged; consequently, for every name drawn from letters,
digits, underscore, dot and hyphen, the resulting symbol contains only
letters, digits and underscores. -/
theorem sanitize_amended (name : String) :
    (sanitize name).data =
      name.data.map (fun c => if c = '.' ∨ c = '-' then '_' else c) ∧
    ((∀ c ∈ name.data, isIdentChar c = true ∨ c = '.' ∨ c = '-') →
      ∀ c ∈ (sanitize name).data, isIdentChar c = true) := by
  have hmap : (sanitize name).data =
      name.data.map (fun c => if c = '.' ∨ c = '-' then '_' else c) := by
    show (name.data.map (fun c => if c = '.' then '_' else c)).map
        (fun c => if c = '-' then '_' else c) = _
    rw [List.map_map]
    have hfun : ((fun c => if c = '-' then '_' else c) ∘
        (fun c => if c = '.' then '_' else c)) =
        (fun c : Char => if c = '.' ∨ c = '-' then '_' else c) := by
      funext c
      by_cases h1 : c = '.'
      · subst h1; decide
      · by_cases h2 : c = '-'
        · subst h2; decide
        · simp [Function.comp, h1, h2]
    rw [hfun]
  refine ⟨hmap, ?_⟩
  intro halpha c hc
  rw [hmap] at hc
  rcases List.mem_map.mp hc with ⟨c0, hc0, hceq⟩
  by_cases h1 : c0 = '.' ∨ c0 = '-'
  · rw [if_pos h1] at hceq
    rw [← hceq]
    decide
  · rw [if_neg h1] at hceq
    rw [← hceq]
    rcases halpha c0 hc0 with h | h | h
    · exact h
    · exact absurd (Or.inl h) h1
    · exact absurd (Or.inr h) h1

/-- C4 witness: every character of the sanitized symbol of `org.a-b` lies
in the letters-digits-underscore alphabet. -/
theorem sanitize_amended_witness :
    ((sanitize "org.a-b").data.all isIdentChar) = true :=
  List.all_eq_true.mpr ((sanitize_amended "org.a-b").2 (by decide))

/-- C5: a malformed schema file anywhere in the selected input set —
whether `json.load` raises or the Loader rejects the document — aborts the
whole run with exit code 1 before the write step of lines 208-218 is
reached, so no artifact is written at all. -/
theorem fail_fast_on_bad_input (listing : List String) (content : String → FileContent)
    (fs : OutputFS) (fn : String) (f : String)
    (hf : f ∈ sortedJsonFiles listing)
    (hbad : content f = .malformed ∨
      ∃ d, content f = .parsed d ∧ loaderAccepts d = false) :
    ∃ e, generate_interfaces listing content fs fn false = .error e ∧
      exitCode (generate_interfaces listing content fs fn false) = 1 := by
  have hb2 : content f = .malformed ∨
      (∃ d, content f = .parsed d ∧
        (loaderAccepts d = false ∨ ∃ e0, processDoc d = .error e0)) := by
    rcases hbad with h | ⟨d, h1, h2⟩
    · exact Or.inl h
    · exact Or.inr ⟨d, h1, Or.inl h2⟩
  rcases processFiles_error_of_mem (sortedJsonFiles listing) f hf hb2 with ⟨e, he⟩
  have hg := generate_error_of_processFiles fs fn false he
  exact ⟨e, hg, by rw [hg]; rfl⟩

/-- C5 witness: one valid and one malformed file produce a failing run
with exit code 1 and no write. -/
theorem fail_fast_on_bad_input_witness :
    ∃ e, generate_interfaces ["a.json", "bad.json"] mixedContent ⟨false, none, none⟩
        "generated_interfaces" false = .error e ∧
      exitCode (generate_interfaces ["a.json", "bad.json"] mixedContent
        ⟨false, none, none⟩ "generated_interfaces" false) = 1 :=
  fail_fast_on_bad_input ["a.json", "bad.json"] mixedContent ⟨false, none, none⟩
    "generated_interfaces" "bad.json" (by decide) (Or.inl rfl)

/-- C6: a write-mode run followed by a check-mode run over the same input
directory, output directory and base name succeeds: check mode re-renders
the same two texts the write step stored, the directory exists, and both
byte-for-byte comparisons match. -/
theorem write_then_check_ok (listing : List String) (content : String → FileContent)
    (fs fs1 : OutputFS) (fn : String)
    (h : generate_interfaces listing content fs fn false = .ok fs1) :
    generate_interfaces listing content fs1 fn true = .ok fs1 := by
  cases hpf : processFiles content (sortedJsonFiles listing) with
  | error e =>
    rw [generate_error_of_processFiles fs fn false hpf] at h
    exact Except.noConfusion h
  | ok p =>
    obtain ⟨decls, structs⟩ := p
    obtain ⟨d1, h1, s1⟩ := fs1
    simp only [generate_interfaces, hpf, Bool.false_eq_true, if_false,
      Except.ok.injEq, OutputFS.mk.injEq] at h
    obtain ⟨e1, e2, e3⟩ := h
    subst e1
    subst e2
    subst e3
    simp [generate_interfaces, hpf]

/-- C6 witness: the concrete write-mode run over the one-interface
directory, followed by check mode against the filesystem it produced,
succeeds. -/
theorem write_then_check_ok_witness :
    generate_interfaces ["i.json"] temperatureContent writtenFS
      "generated_interfaces" true = .ok writtenFS :=
  write_then_check_ok ["i.json"] temperatureContent ⟨false, none, none⟩ writtenFS
    "generated_interfaces" (by rfl)

/-- C7: the processed file sequence is the extension-filtered listing in
sorted order (sorted by Python string comparison, which is the
lexicographic order on character lists, and independent of the iteration
order of the listing); the i-th declaration and definition block of a
successful run come from the i-th sorted file; and the rendered mapping
records of one interface sit in exactly the document order of its mapping
list, never re-sorted. -/
theorem output_order (listing : List String) (content : String → FileContent) :
    List.Sorted pyStrLe (sortedJsonFiles listing) ∧
    (∀ a b : String, pyStrLe a b ↔
      (a.data = b.data ∨ List.Lex (· < ·) a.data b.data)) ∧
    (sortedJsonFiles listing).Perm
      (listing.filter (fun n => pySuffix n == ".json")) ∧
    (∀ l2, listing.Perm l2 → sortedJsonFiles listing = sortedJsonFiles l2) ∧
    (∀ (names decls structs : List String),
      processFiles content names = .ok (decls, structs) →
      decls.length = names.length ∧ structs.length = names.length ∧
      ∀ (i : Nat) (f : String), names[i]? = some f →
        ∃ doc mst, content f = .parsed doc ∧ loaderAccepts doc = true ∧
          renderMappings doc.mappings = .ok mst ∧
          decls[i]? = some (declOf doc) ∧ structs[i]? = some (structOf doc mst)) ∧
    (∀ (ms : List Mapping) (l : List String), renderMappings ms = .ok l →
      l.length = ms.length ∧
      ∀ (i : Nat) (m : Mapping), ms[i]? = some m →
        ∃ s, renderMapping m = .ok s ∧ l[i]? = some s) := by
  refine ⟨sortedJsonFiles_sorted listing, ?_, sortedJsonFiles_perm listing,
    fun l2 hp => sortedJsonFiles_perm_inv hp, processFiles_ok_spec,
    renderMappings_ok_spec⟩
  intro a b
  exact charListLe_iff_lex a.data b.data

/-- C7 witness: sorting is iteration-order independent on a concrete pair
of listings, and on the concrete one-interface run the first output slot
holds the declaration and definition block of the first sorted file. -/
theorem output_order_witness :
    sortedJsonFiles ["b.json", "a.json"] = sortedJsonFiles ["a.json", "b.json"] ∧
    (∃ doc mst, temperatureContent "i.json" = .parsed doc ∧
      loaderAccepts doc = true ∧ renderMappings doc.mappings = .ok mst ∧
      tempDecls[0]? = some (declOf doc) ∧ tempStructs[0]? = some (structOf doc mst)) :=
  ⟨(output_order ["b.json", "a.json"] temperatureContent).2.2.2.1
      ["a.json", "b.json"] (List.Perm.swap "a.json" "b.json" []),
    ((output_order [] temperatureContent).2.2.2.2.1 ["i.json"] tempDecls tempStructs
      (by rfl)).2.2 0 "i.json" (by rfl)⟩

/-- C8: the rendered artifacts are a deterministic function of the input:
rendering in this embedding is a pure function, so compiling the same
documents twice yields byte-identical texts, and two listings of the same
files in any two filesystem iteration orders produce identical runs. -/
theorem deterministic_output (l1 l2 : List String) (content : String → FileContent)
    (fs : OutputFS) (fn : String) (chk : Bool) (hperm : l1.Perm l2) :
    generate_interfaces l1 content fs fn chk =
      generate_interfaces l2 content fs fn chk := by
  simp only [generate_interfaces, sortedJsonFiles_perm_inv hperm]

/-- C8 witness: the two iteration orders of a concrete two-file directory
produce identical runs. -/
theorem deterministic_output_witness :
    generate_interfaces ["b.json", "a.json"] temperatureContent ⟨false, none, none⟩
      "generated_interfaces" false =
    generate_interfaces ["a.json", "b.json"] temperatureContent ⟨false, none, none⟩
      "generated_interfaces" false :=
  deterministic_output ["b.json", "a.json"] ["a.json", "b.json"] temperatureContent
    ⟨false, none, none⟩ "generated_interfaces" false
    (List.Perm.swap "a.json" "b.json" [])

/-- C9: reliability 0, 1, 2 map to the Unreliable, Guaranteed and Unique
constants respectively; every other integer is absent from the lookup
dictionary, so rendering its mapping raises the KeyError failure instead
of defaulting, and any run whose input holds such a mapping fails with
exit code 1. -/
theorem reliability_mapping_total :
    (∀ m : Mapping, m.reliability = 0 → renderMapping m =
      .ok (mapping_definition_template m.endpoint
        ("ASTARTE_MAPPING_TYPE_" ++ pyUpper m.type)
        "ASTARTE_MAPPING_RELIABILITY_UNRELIABLE"
        (pyBool m.explicit_timestamp) (pyBool m.allow_unset))) ∧
    (∀ m : Mapping, m.reliability = 1 → renderMapping m =
      .ok (mapping_definition_template m.endpoint
        ("ASTARTE_MAPPING_TYPE_" ++ pyUpper m.type)
        "ASTARTE_MAPPING_RELIABILITY_GUARANTEED"
        (pyBool m.explicit_timestamp) (pyBool m.allow_unset))) ∧
    (∀ m : Mapping, m.reliability = 2 → renderMapping m =
      .ok (mapping_definition_template m.endpoint
        ("ASTARTE_MAPPING_TYPE_" ++ pyUpper m.type)
        "ASTARTE_MAPPING_RELIABILITY_UNIQUE"
        (pyBool m.explicit_timestamp) (pyBool m.allow_unset))) ∧
    (∀ r : Int, r ≠ 0 → r ≠ 1 → r ≠ 2 → reliability_lookup r = none) ∧
    (∀ m : Mapping, reliability_lookup m.reliability = none →
      renderMapping m = .error (.keyError m.reliability)) ∧
    (∀ (listing : List String) (content : String → FileContent) (fs : OutputFS)
      (fn : String) (chk : Bool) (f : String) (doc : InterfaceDoc) (m : Mapping),
      f ∈ sortedJsonFiles listing → content f = .parsed doc → m ∈ doc.mappings →
      reliability_lookup m.reliability = none →
      ∃ e, generate_interfaces listing content fs fn chk = .error e ∧
        exitCode (generate_interfaces listing content fs fn chk) = 1) := by
  refine ⟨?_, ?_, ?_, ?_, ?_, ?_⟩
  · intro m h; simp only [renderMapping, h]; rfl
  · intro m h; simp only [renderMapping, h]; rfl
  · intro m h; simp only [renderMapping, h]; rfl
  · intro r h0 h1 h2; simp [reliability_lookup, h0, h1, h2]
  · intro m h; simp only [renderMapping, h]
  · intro listing content fs fn chk f doc m hf hc hm hbad
    have hpd : ∃ e0, processDoc doc = .error e0 := by
      rcases renderMappings_error_of_mem hm hbad with ⟨e0, he0⟩
      exact ⟨e0, by simp [processDoc, he0]⟩
    rcases processFiles_error_of_mem (sortedJsonFiles listing) f hf
      (Or.inr ⟨doc, hc, Or.inr hpd⟩) with ⟨e, he⟩
    have hg := generate_error_of_processFiles fs fn chk he
    exact ⟨e, hg, by rw [hg]; rfl⟩

/-- C9 witness: a directory holding one document whose single mapping has
reliability 7 makes the run fail with exit code 1. -/
theorem reliability_mapping_total_witness :
    ∃ e, generate_interfaces ["r.json"] badRelContent ⟨false, none, none⟩
        "generated_interfaces" false = .error e ∧
      exitCode (generate_interfaces ["r.json"] badRelContent ⟨false, none, none⟩
        "generated_interfaces" false) = 1 :=
  reliability_mapping_total.2.2.2.2.2 ["r.json"] badRelContent ⟨false, none, none⟩
    "generated_interfaces" false "r.json" badRelDoc
    ⟨"/v", "double", 7, false, false⟩ (by decide) rfl (by decide) rfl

/-- C10: a document whose mapping list is empty is rejected by the Loader
(spec-modelled, see `loaderAccepts`), any run containing one fails with
exit code 1, and every definition block a successful run emits belongs to
a document with at least one mapping, its array length equal to the length
of the rendered record list. -/
theorem empty_mappings_rejected :
    (∀ doc : InterfaceDoc, doc.mappings = [] → loaderAccepts doc = false) ∧
    (∀ (listing : List String) (content : String → FileContent) (fs : OutputFS)
      (fn : String) (chk : Bool) (f : String) (doc : InterfaceDoc),
      f ∈ sortedJsonFiles listing → content f = .parsed doc → doc.mappings = [] →
      ∃ e, generate_interfaces listing content fs fn chk = .error e ∧
        exitCode (generate_interfaces listing content fs fn chk) = 1) ∧
    (∀ (content : String → FileContent) (names decls structs : List String)
      (s : String),
      processFiles content names = .ok (decls, structs) → s ∈ structs →
      ∃ doc mst, s = structOf doc mst ∧ doc.mappings ≠ [] ∧
        mst.length = doc.mappings.length) := by
  refine ⟨?_, ?_, ?_⟩
  · intro doc h; simp [loaderAccepts, h]
  · intro listing content fs fn chk f doc hf hc hemp
    have hla : loaderAccepts doc = false := by simp [loaderAccepts, hemp]
    rcases processFiles_error_of_mem (sortedJsonFiles listing) f hf
      (Or.inr ⟨doc, hc, Or.inl hla⟩) with ⟨e, he⟩
    have hg := generate_error_of_processFiles fs fn chk he
    exact ⟨e, hg, by rw [hg]; rfl⟩
  · intro content names decls structs s hok hs
    rcases processFiles_structs_mem names decls structs s hok hs with
      ⟨doc, mst, hacc, hrm, hseq⟩
    exact ⟨doc, mst, hseq, (loaderAccepts_spec hacc).1,
      (renderMappings_ok_spec doc.mappings mst hrm).1⟩

/-- C10 witness: a directory holding only the empty-mappings document
makes the run fail with exit code 1. -/
theorem empty_mappings_rejected_witness :
    ∃ e, generate_interfaces ["e.json"] emptyMapContent ⟨false, none, none⟩
        "generated_interfaces" false = .error e ∧
      exitCode (generate_interfaces ["e.json"] emptyMapContent ⟨false, none, none⟩
        "generated_interfaces" false) = 1 :=
  empty_mappings_rejected.2.1 ["e.json"] emptyMapContent ⟨false, none, none⟩
    "generated_interfaces" false "e.json" emptyDoc (by decide) rfl rfl

end AstarteGen
